import Mathlib

/-!
Shallow embedding of the DavBot voice-client session controller
(`src/main.js`, class `DavBot`): network classification
(`getNetworkInfo`), session start (`startCall`), the vapi event
handlers (`call-start`, `call-end`, `error`), manual stop (`endCall`)
and the connection-error retry policy (`handleConnectionError`).

State is the mutable instance fields of the class; asynchronous
behaviour (the `setTimeout` retry timers and the event stream) is
modelled by an explicit event-driven small-step system `stepSys`
over a list of pending timers, plus a linearised run `runFailures`
for alternating failure/retry sequences.
-/

namespace DavBot

/-- JS `String.prototype.includes`: substring containment. -/
def strContains (s sub : String) : Bool :=
  s.toList.tails.any (fun t => sub.toList.isPrefixOf t)

/-- JS truthiness of an optional string configuration value:
`undefined` and the empty string are falsy. -/
def truthy : Option String → Bool
  | none => false
  | some s => !(s == "")

/-- The `navigator.connection` metadata object (Network Information API);
absent fields are `undefined`. -/
structure Connection where
  effectiveType : Option String
  downlink : Option Nat
  rtt : Option Nat
  type : Option String
deriving DecidableEq

/-- The browser environment consulted by the controller: connection
metadata, the mobile user-agent regex test
(`/Mobile|Android|iPhone|iPad/i.test(navigator.userAgent)`), the outcome
of the `/health` probe fetch (`some rtt` in ms on success, `none` when the
fetch throws), and whether a screen wake lock is supported and granted. -/
structure Env where
  connection : Option Connection
  mobileUA : Bool
  probe : Option Nat
  wakeLockGrant : Bool
deriving DecidableEq

/-- The `networkInfo` record built by `getNetworkInfo`. -/
structure NetworkInfo where
  cellular : Bool
  effectiveType : String
  downlink : Option Nat
  rtt : Option Nat
deriving DecidableEq

/-- The metadata-based cellular classification
(`connection.type === 'cellular' ||
['slow-2g','2g','3g'].includes(connection.effectiveType)`). -/
def metaCellular : Option Connection → Bool
  | none => false
  | some connection =>
      connection.type == some "cellular" ||
        (match connection.effectiveType with
         | some e => e == "slow-2g" || e == "2g" || e == "3g"
         | none => false)

/-- `DavBot.getNetworkInfo`: read the Network Information API when
available, then fall back to a latency probe on mobile devices whenever
the classification so far is non-cellular.  The second component records
whether the probe fetch was issued. -/
def getNetworkInfo (env : Env) : NetworkInfo × Bool :=
  let networkInfo : NetworkInfo :=
    { cellular := false, effectiveType := "unknown", downlink := none, rtt := none }
  let networkInfo :=
    match env.connection with
    | some connection =>
        { cellular := metaCellular (some connection),
          effectiveType :=
            match connection.effectiveType with
            | some e => if e == "" then "unknown" else e
            | none => "unknown",
          downlink := connection.downlink,
          rtt := connection.rtt }
    | none => networkInfo
  if !networkInfo.cellular && env.mobileUA then
    match env.probe with
    | some rtt =>
        if 150 < rtt then
          ({ networkInfo with cellular := true, rtt := some rtt }, true)
        else (networkInfo, true)
    | none => ({ networkInfo with cellular := true }, true)
  else (networkInfo, false)

/-- The mutable instance fields of the `DavBot` class that the session
and retry logic reads and writes. -/
structure BotState where
  vapi : Bool
  isCallActive : Bool
  wakeLock : Bool
  connectionRetries : Nat
  maxRetries : Nat
deriving DecidableEq

/-- The fields as initialised by the constructor. -/
def freshBot : BotState :=
  { vapi := false, isCallActive := false, wakeLock := false,
    connectionRetries := 0, maxRetries := 3 }

/-- Observable side effects of the controller: DOM/status updates,
transport calls, the probe fetch, the cellular buffer delay, and the
audio-settings calls on the Daily call object. -/
inductive Effect
  | updateStatus (text kind : String)
  | addMessage (role text : String)
  | setButtonState (s : String)
  | setAvatarState (s : String)
  | newVapi
  | setupListeners
  | wakeLockRequest
  | probeFetch
  | cellularBuffer
  | vapiStart
  | vapiStop
  | updateInputProcessorNone
  | setOutputDefault
  | sendSettingsVideoOffBitrate (bitrate : Nat)
  | wakeLockRelease
deriving DecidableEq

/-- The probe fetch performed inside a call to `getNetworkInfo`,
as an effect list. -/
def networkInfoEffects (env : Env) : List Effect :=
  if (getNetworkInfo env).2 then [Effect.probeFetch] else []

/-- The three `setTimeout` retry timers of the source: the one in the
`startCall` catch block (2000 ms), the cellular one in
`handleConnectionError` (3000 ms, whose callback re-invokes `startCall`
only when `connectionRetries < 2` at firing time), and the non-cellular
one (2000 ms). -/
inductive TimerKind
  | catchRetry
  | cellularRetry
  | plainRetry
deriving DecidableEq

def timerDelay : TimerKind → Nat
  | .catchRetry => 2000
  | .cellularRetry => 3000
  | .plainRetry => 2000

/-- Whether a firing timer's callback actually re-invokes `startCall`,
given the state at firing time. -/
def timerFires (k : TimerKind) (s : BotState) : Bool :=
  match k with
  | .cellularRetry => s.connectionRetries < 2
  | .catchRetry => true
  | .plainRetry => true

/-- Result of one handler run: the updated fields, the emitted effects,
and the retry timer it scheduled, if any. -/
structure StepOut where
  state : BotState
  effects : List Effect
  timer : Option TimerKind
deriving DecidableEq

/-- The linearised meaning of a scheduled timer when no other event
intervenes before it fires: `some delay` when its callback will
re-invoke `startCall`, `none` otherwise. -/
def stepRetry (o : StepOut) : Option Nat :=
  match o.timer with
  | some k => if timerFires k o.state then some (timerDelay k) else none
  | none => none

/-- The marker test of the cellular branch of `handleConnectionError`. -/
def networkRelated (m : String) : Bool :=
  strContains m "network" || strContains m "connection" || strContains m "timeout"

/-- `DavBot.handleConnectionError`: classify the network, then branch on
cellular vs not and on the failure text.  The handler never mutates
`connectionRetries`; the cellular branch always sets its 3000 ms timer
(the `connectionRetries < 2` guard sits inside the callback), the
non-cellular branch sets its 2000 ms timer only when
`connectionRetries < maxRetries` and the text contains `network`. -/
def handleConnectionError (env : Env) (error : Option String) (s : BotState) : StepOut :=
  let errorMessage :=
    match error with
    | some m => if m == "" then "Unknown error occurred" else m
    | none => "Unknown error occurred"
  let networkInfo := (getNetworkInfo env).1
  let probeEffects := networkInfoEffects env
  if networkInfo.cellular then
    if networkRelated errorMessage then
      { state := s,
        effects := probeEffects ++
          [Effect.updateStatus "Cellular network issue detected" "error",
           Effect.addMessage "system" "Poor cellular connection detected. Try:",
           Effect.addMessage "system" "Moving to an area with better signal",
           Effect.addMessage "system" "Switching to WiFi if available",
           Effect.addMessage "system" "Waiting a moment and retrying"],
        timer := some TimerKind.cellularRetry }
    else
      { state := s,
        effects := probeEffects ++
          [Effect.updateStatus "Connection error" "error",
           Effect.addMessage "system" ("Cellular Error: " ++ errorMessage)],
        timer := none }
  else
    { state := s,
      effects := probeEffects ++
        [Effect.updateStatus "Connection error" "error",
         Effect.addMessage "system" ("Error: " ++ errorMessage)],
      timer :=
        if decide (s.connectionRetries < s.maxRetries) && strContains errorMessage "network"
        then some TimerKind.plainRetry else none }

/-- The environment-supplied credentials (`import.meta.env`). -/
structure Config where
  publicKey : Option String
  assistant : Option String
deriving DecidableEq

/-- `DavBot.startCall`: fail fast on missing credentials; otherwise
construct the transport, attach listeners, request the wake lock,
classify the network, apply the cellular buffer, and ask the transport
to start.  `outcome = some msg` means `vapi.start` threw with that
message, taking the catch path: increment `connectionRetries` and, on a
mobile user agent with `connectionRetries < maxRetries`, schedule the
2000 ms catch retry. -/
def startCall (config : Config) (env : Env) (outcome : Option String) (s : BotState) : StepOut :=
  if !truthy config.publicKey || !truthy config.assistant then
    { state := s,
      effects :=
        [Effect.updateStatus "Please configure your Vapi credentials" "error",
         Effect.addMessage "system"
           "Error: Please set VITE_VAPI_PUBLIC_KEY and VITE_VAPI_ASSISTANT_ID environment variables"],
      timer := none }
  else
    let s1 : BotState :=
      { s with vapi := true,
               wakeLock := if env.wakeLockGrant then true else s.wakeLock }
    let preEffects : List Effect :=
      [Effect.updateStatus "Initializing..." "connecting",
       Effect.setButtonState "connecting",
       Effect.newVapi, Effect.setupListeners, Effect.wakeLockRequest] ++
      networkInfoEffects env ++
      (if (getNetworkInfo env).1.cellular then
         [Effect.addMessage "system" "Optimizing for cellular connection...",
          Effect.cellularBuffer]
       else []) ++
      [Effect.vapiStart]
    match outcome with
    | none => { state := s1, effects := preEffects, timer := none }
    | some errMsg =>
        let s2 := { s1 with connectionRetries := s1.connectionRetries + 1 }
        { state := s2,
          effects := preEffects ++
            [Effect.updateStatus "Failed to start conversation" "error",
             Effect.addMessage "system" ("Error: " ++ errMsg),
             Effect.setButtonState "idle"],
          timer :=
            if decide (s2.connectionRetries < s2.maxRetries) && env.mobileUA
            then some TimerKind.catchRetry else none }

/-- The `call-start` listener: mark the call active, reset
`connectionRetries` to 0, and on mobile apply the audio optimizations —
including, when classified cellular, the video-off / 32 kbps send
settings and the processor-none input settings. -/
def callStartHandler (env : Env) (s : BotState) : BotState × List Effect :=
  let s1 := { s with isCallActive := true, connectionRetries := 0 }
  let effects :=
    [Effect.updateStatus "Connected! Start speaking..." "listening",
     Effect.setButtonState "active",
     Effect.setAvatarState "listening",
     Effect.addMessage "system" "Connected to DavBot! You can start speaking now."] ++
    (if env.mobileUA then
       [Effect.updateInputProcessorNone, Effect.setOutputDefault] ++
       networkInfoEffects env ++
       (if (getNetworkInfo env).1.cellular then
          [Effect.updateInputProcessorNone, Effect.sendSettingsVideoOffBitrate 32000]
        else [])
     else [])
  (s1, effects)

/-- The `call-end` listener: mark the call inactive and update the UI.
It does not touch the wake lock. -/
def callEndHandler (s : BotState) : BotState × List Effect :=
  ({ s with isCallActive := false },
   [Effect.updateStatus "Conversation ended" "idle",
    Effect.setButtonState "idle",
    Effect.setAvatarState "idle",
    Effect.addMessage "system" "Conversation ended."])

/-- The `error` listener: mark the call inactive, reset the UI, then
delegate to `handleConnectionError`. -/
def errorEvent (env : Env) (error : Option String) (s : BotState) : StepOut :=
  let s1 := { s with isCallActive := false }
  let o := handleConnectionError env error s1
  { o with
    effects := [Effect.setButtonState "idle", Effect.setAvatarState "idle"] ++ o.effects }

/-- `DavBot.endCall`: only acts when the transport exists and the call is
active; asks the transport to stop, releases the wake lock when held,
and resets `connectionRetries` to 0.  It does not clear `isCallActive`
(the subsequent `call-end` event does) and does not cancel any pending
retry timer. -/
def endCall (s : BotState) : BotState × List Effect :=
  if s.vapi && s.isCallActive then
    if s.wakeLock then
      ({ s with wakeLock := false, connectionRetries := 0 },
       [Effect.vapiStop, Effect.updateStatus "Ending conversation..." "ending",
        Effect.wakeLockRelease])
    else
      ({ s with connectionRetries := 0 },
       [Effect.vapiStop, Effect.updateStatus "Ending conversation..." "ending"])
  else (s, [])

/-- One failure of a session attempt: either `startCall` itself threw,
or the attempt started and the transport later emitted an `error`
event. -/
inductive Failure
  | thrown (msg : String)
  | evented (msg : String)
deriving DecidableEq

/-- The handler run caused by one failure. -/
def failStep (config : Config) (env : Env) (s : BotState) : Failure → StepOut
  | .thrown m => startCall config env (some m) s
  | .evented m => errorEvent env (some m) s

/-- Linearised run of an alternating sequence of failures and the
retries they schedule: after each failure, the run continues with the
next failure only when the scheduled retry re-invokes `startCall`
(no other event intervenes before the timer fires). -/
def runFailures (config : Config) (env : Env) : BotState → List Failure → BotState
  | s, [] => s
  | s, f :: fs =>
      let o := failStep config env s f
      match stepRetry o with
      | some _ => runFailures config env o.state fs
      | none => o.state

/-- The whole page: the controller fields, the pending (uncancelled)
retry timers in scheduling order, and how many times `startCall` has
been invoked. -/
structure Sys where
  bot : BotState
  timers : List TimerKind
  startsInvoked : Nat
deriving DecidableEq

/-- The asynchronous events the page reacts to: a mic-button click,
the transport events, and the firing of the i-th pending timer.  Events
that run `startCall` carry the environment and the outcome of
`vapi.start` for that invocation. -/
inductive Ev
  | click (env : Env) (outcome : Option String)
  | vapiError (env : Env) (msg : Option String)
  | callStarted (env : Env)
  | callEnded
  | fire (i : Nat) (env : Env) (outcome : Option String)
deriving DecidableEq

/-- Append the timer a handler scheduled, if any. -/
def pushTimer (o : StepOut) (timers : List TimerKind) : List TimerKind :=
  match o.timer with
  | some k => timers ++ [k]
  | none => timers

/-- Run `startCall` inside the event system. -/
def invokeStart (config : Config) (env : Env) (outcome : Option String) (sys : Sys) : Sys :=
  let o := startCall config env outcome sys.bot
  { bot := o.state, timers := pushTimer o sys.timers,
    startsInvoked := sys.startsInvoked + 1 }

/-- One event-loop reaction, straight from the listeners of the source:
the click handler toggles on `isCallActive`; the vapi listeners only
exist once a transport has been constructed; a firing timer is removed
from the pending list and its callback runs (the cellular one guarded by
`connectionRetries < 2`).  No handler ever cancels a pending timer. -/
def stepSys (config : Config) (sys : Sys) : Ev → Sys
  | .click env outcome =>
      if sys.bot.isCallActive then { sys with bot := (endCall sys.bot).1 }
      else invokeStart config env outcome sys
  | .vapiError env msg =>
      if sys.bot.vapi then
        let o := errorEvent env msg sys.bot
        { sys with bot := o.state, timers := pushTimer o sys.timers }
      else sys
  | .callStarted env =>
      if sys.bot.vapi then { sys with bot := (callStartHandler env sys.bot).1 } else sys
  | .callEnded =>
      if sys.bot.vapi then { sys with bot := (callEndHandler sys.bot).1 } else sys
  | .fire i env outcome =>
      match sys.timers[i]? with
      | none => sys
      | some k =>
          let sys1 := { sys with timers := sys.timers.eraseIdx i }
          if timerFires k sys1.bot then invokeStart config env outcome sys1
          else sys1

def runSys (config : Config) : Sys → List Ev → Sys
  | sys, [] => sys
  | sys, e :: es => runSys config (stepSys config sys e) es

def initSys : Sys := { bot := freshBot, timers := [], startsInvoked := 0 }

/-! Concrete configurations and environments used by the witnesses and
counterexamples. -/

def goodConfig : Config := { publicKey := some "pk", assistant := some "asst" }

def badConfig : Config := { publicKey := none, assistant := some "asst" }

/-- A cellular mobile environment: metadata reports a 2g cellular link. -/
def cellEnv : Env :=
  { connection := some { effectiveType := some "2g", downlink := none, rtt := none,
                         type := some "cellular" },
    mobileUA := true, probe := none, wakeLockGrant := true }

/-- A mobile device on WiFi: metadata reports a 4g wifi link, and the
fallback probe round-trip stays under the 150 ms threshold. -/
def wifiMobileEnv : Env :=
  { connection := some { effectiveType := some "4g", downlink := none, rtt := none,
                         type := some "wifi" },
    mobileUA := true, probe := some 50, wakeLockGrant := true }

/-- A desktop with no connection metadata. -/
def desktopEnv : Env :=
  { connection := none, mobileUA := false, probe := none, wakeLockGrant := true }

/-- A mobile device with no connection metadata whose probe fetch throws. -/
def probeFailEnv : Env :=
  { connection := none, mobileUA := true, probe := none, wakeLockGrant := true }

example : (getNetworkInfo cellEnv).1.cellular = true := by decide
example : (getNetworkInfo cellEnv).2 = false := by decide
example : (getNetworkInfo wifiMobileEnv).1.cellular = false := by decide
example : (getNetworkInfo wifiMobileEnv).2 = true := by decide
example : (getNetworkInfo desktopEnv).1 =
    { cellular := false, effectiveType := "unknown", downlink := none, rtt := none } := by decide
example : (getNetworkInfo probeFailEnv).1.cellular = true := by decide
example : networkRelated "connection timeout" = true := by decide
example : networkRelated "invalid assistant id" = false := by decide
example : strContains "request failed: network unreachable" "network" = true := by decide

/-! Helper lemmas shared by the claim theorems. -/

/-- `handleConnectionError` never mutates the instance fields. -/
theorem handleConnectionError_state (env : Env) (error : Option String) (s : BotState) :
    (handleConnectionError env error s).state = s := by
  simp only [handleConnectionError]
  split
  · split <;> rfl
  · rfl

/-- The `error` listener only clears `isCallActive`. -/
theorem errorEvent_state (env : Env) (error : Option String) (s : BotState) :
    (errorEvent env error s).state = { s with isCallActive := false } := by
  simp only [errorEvent]
  exact handleConnectionError_state env error { s with isCallActive := false }

/-- `startCall` never changes `maxRetries`. -/
theorem startCall_maxRetries (config : Config) (env : Env) (outcome : Option String)
    (s : BotState) :
    (startCall config env outcome s).state.maxRetries = s.maxRetries := by
  simp only [startCall]
  split
  · rfl
  · cases outcome <;> rfl

/-- `startCall` raises `connectionRetries` by at most one. -/
theorem startCall_retries (config : Config) (env : Env) (outcome : Option String)
    (s : BotState) :
    (startCall config env outcome s).state.connectionRetries ≤ s.connectionRetries + 1 := by
  simp only [startCall]
  split
  · exact Nat.le_succ _
  · cases outcome
    · exact Nat.le_succ _
    · exact Nat.le_refl _

/-- When a `startCall` failure schedules a firing retry, the incremented
counter is still below `maxRetries`. -/
theorem startCall_retry_bound (config : Config) (env : Env) (m : String) (s : BotState)
    (h : stepRetry (startCall config env (some m) s) ≠ none) :
    (startCall config env (some m) s).state.connectionRetries <
      (startCall config env (some m) s).state.maxRetries := by
  by_cases hcfg : (!truthy config.publicKey || !truthy config.assistant) = true
  · simp [startCall, hcfg, stepRetry] at h
  · by_cases hcond :
      (decide (s.connectionRetries + 1 < s.maxRetries) && env.mobileUA) = true
    · have hlt : s.connectionRetries + 1 < s.maxRetries :=
        of_decide_eq_true ((Bool.and_eq_true _ _).mp hcond).1
      simpa [startCall, hcfg] using hlt
    · simp [startCall, hcfg, hcond, stepRetry] at h

/-- One failure step: `maxRetries` is preserved, the counter grows by at
most one, and whenever a retry will fire the counter is at most 2
(given `maxRetries = 3`). -/
theorem failStep_facts (config : Config) (env : Env) (s : BotState) (f : Failure)
    (hr : s.connectionRetries ≤ 2) (hm : s.maxRetries = 3) :
    (failStep config env s f).state.maxRetries = 3 ∧
    (failStep config env s f).state.connectionRetries ≤ 3 ∧
    (stepRetry (failStep config env s f) ≠ none →
      (failStep config env s f).state.connectionRetries ≤ 2) := by
  cases f with
  | evented m =>
      refine ⟨?_, ?_, fun _ => ?_⟩ <;>
        simp [failStep, errorEvent_state, hm] <;> omega
  | thrown m =>
      refine ⟨?_, ?_, fun h => ?_⟩
      · rw [show failStep config env s (Failure.thrown m) = startCall config env (some m) s
              from rfl, startCall_maxRetries, hm]
      · exact le_trans (startCall_retries config env (some m) s) (by omega)
      · have h1 := startCall_retry_bound config env m s h
        have h2 := startCall_maxRetries config env (some m) s
        rw [h2, hm] at h1
        show (startCall config env (some m) s).state.connectionRetries ≤ 2
        omega

/-- Bounded-retry invariant for the linearised run: starting at or below
counter 2 with `maxRetries = 3`, the counter never passes 3. -/
theorem runFailures_le (config : Config) (env : Env) :
    ∀ (fs : List Failure) (s : BotState),
      s.connectionRetries ≤ 2 → s.maxRetries = 3 →
      (runFailures config env s fs).connectionRetries ≤ 3 := by
  intro fs
  induction fs with
  | nil => intro s hr _; simpa [runFailures] using hr.trans (by omega)
  | cons f fs ih =>
      intro s hr hm
      obtain ⟨h1, h2, h3⟩ := failStep_facts config env s f hr hm
      simp only [runFailures]
      rcases hre : stepRetry (failStep config env s f) with _ | d
      · simpa using h2
      · exact ih _ (h3 (by simp [hre])) h1

/-! ## Claim C1 -/

/-- C1, counterexample: under a cellular-classified network on a mobile
device, three successive failures thrown by `startCall` — each followed
by the retry it schedules — drive `connectionRetries` to 3, exceeding
the claimed cellular cap of 2 before the controller stops scheduling
retries: the `startCall` catch path caps at `maxRetries = 3` and never
consults the network classification. -/
theorem c1_cellular_cap_counterexample :
    (getNetworkInfo cellEnv).1.cellular = true ∧
    (runFailures goodConfig cellEnv freshBot
      [Failure.thrown "network down", Failure.thrown "network down",
       Failure.thrown "network down"]).connectionRetries = 3 := by decide

/-- C1, amended: for every alternating sequence of failures and the
retries they schedule, starting from a fresh controller,
`connectionRetries` never exceeds `maxRetries = 3` — regardless of the
network classification.  The cellular cap of 2 only gates whether the
error-event timer re-invokes `startCall`, and that path never increments
the counter; only the `startCall` failure path increments it, capped by
`maxRetries`, ignoring the classification. -/
theorem c1_retry_counter_never_exceeds_maxRetries (config : Config) (env : Env)
    (fs : List Failure) :
    (runFailures config env freshBot fs).connectionRetries ≤ 3 :=
  runFailures_le config env fs freshBot (by decide) rfl

/-! ## Claim C2 -/

/-- C2, counterexample: under cellular classification, a first
network-related error-event failure schedules a firing 3000 ms retry,
and a second consecutive one schedules a firing retry again — it is not
reported terminal, because the handler never increments
`connectionRetries`. -/
theorem c2_second_failure_retries_counterexample :
    (stepRetry (handleConnectionError cellEnv (some "network connection lost") freshBot)
      = some 3000) ∧
    (stepRetry (handleConnectionError cellEnv (some "network connection lost")
        (handleConnectionError cellEnv (some "network connection lost") freshBot).state)
      = some 3000) := by decide

/-- C2, amended: under cellular classification a network-related failure
delivered to the error handler schedules a 3000 ms retry that re-invokes
`startCall` exactly when `connectionRetries < 2`; the handler leaves the
counter unchanged, so consecutive event-delivered failures keep
retrying — the counter advances only when `startCall` itself throws. -/
theorem c2_cellular_retry_policy (env : Env) (m : String) (s : BotState)
    (hc : (getNetworkInfo env).1.cellular = true)
    (hm : networkRelated m = true) :
    (handleConnectionError env (some m) s).state.connectionRetries = s.connectionRetries ∧
    stepRetry (handleConnectionError env (some m) s) =
      if s.connectionRetries < 2 then some 3000 else none := by
  have hne : m ≠ "" := by
    intro h; rw [h] at hm; exact absurd hm (by decide)
  refine ⟨by rw [handleConnectionError_state], ?_⟩
  simp [handleConnectionError, stepRetry, hne, hc, hm, timerFires, timerDelay]

/-- Witness for `c2_cellular_retry_policy` at a concrete cellular
environment and message. -/
theorem c2_cellular_retry_policy_witness :
    (getNetworkInfo cellEnv).1.cellular = true ∧ networkRelated "network down" = true ∧
    ((handleConnectionError cellEnv (some "network down") freshBot).state.connectionRetries
        = freshBot.connectionRetries ∧
     stepRetry (handleConnectionError cellEnv (some "network down") freshBot) =
       if freshBot.connectionRetries < 2 then some 3000 else none) :=
  ⟨by decide, by decide,
   c2_cellular_retry_policy cellEnv "network down" freshBot (by decide) (by decide)⟩

/-! ## Claim C3 -/

/-- C3, counterexample: under a non-cellular classification a failure
whose message contains the `timeout` marker (but not `network`) is not
retried at all — the non-cellular branch only checks `network` — and
even a retried `network` failure leaves the counter unincremented. -/
theorem c3_marker_and_increment_counterexample :
    (stepRetry (handleConnectionError wifiMobileEnv (some "timeout") freshBot) = none) ∧
    (stepRetry (handleConnectionError wifiMobileEnv
        (some "request failed: network unreachable") freshBot) = some 2000) ∧
    ((handleConnectionError wifiMobileEnv
        (some "request failed: network unreachable") freshBot).state.connectionRetries = 0)
    := by decide

/-- C3, amended: under a non-cellular classification the handler
schedules a firing 2000 ms retry exactly when the message contains the
`network` marker (messages with only `connection`/`timeout` are not
retried) and `connectionRetries < maxRetries`; the handler never
increments the counter — the counter is incremented only when
`startCall` throws. -/
theorem c3_noncellular_retry_policy (env : Env) (m : String) (s : BotState)
    (hc : (getNetworkInfo env).1.cellular = false) (hne : m ≠ "") :
    (handleConnectionError env (some m) s).state.connectionRetries = s.connectionRetries ∧
    stepRetry (handleConnectionError env (some m) s) =
      if decide (s.connectionRetries < s.maxRetries) && strContains m "network"
      then some 2000 else none := by
  refine ⟨by rw [handleConnectionError_state], ?_⟩
  by_cases hb : (decide (s.connectionRetries < s.maxRetries) && strContains m "network") = true
  · simp [handleConnectionError, stepRetry, hne, hc, hb, timerFires, timerDelay]
  · simp [handleConnectionError, stepRetry, hne, hc, hb]

/-- Witness for `c3_noncellular_retry_policy` at a concrete WiFi mobile
environment. -/
theorem c3_noncellular_retry_policy_witness :
    (getNetworkInfo wifiMobileEnv).1.cellular = false ∧ "network glitch" ≠ "" ∧
    ((handleConnectionError wifiMobileEnv
        (some "network glitch") freshBot).state.connectionRetries
        = freshBot.connectionRetries ∧
     stepRetry (handleConnectionError wifiMobileEnv (some "network glitch") freshBot) =
       if decide (freshBot.connectionRetries < freshBot.maxRetries) &&
            strContains "network glitch" "network"
       then some 2000 else none) :=
  ⟨by decide, by decide,
   c3_noncellular_retry_policy wifiMobileEnv "network glitch" freshBot
     (by decide) (by decide)⟩

/-! ## Claim C4 -/

/-- C4, counterexample: a failure with no network/connection/timeout
marker thrown by `startCall` on a mobile user agent does schedule a
2000 ms retry — the catch path never inspects the message. -/
theorem c4_thrown_failure_retry_counterexample :
    networkRelated "invalid assistant id" = false ∧
    stepRetry (startCall goodConfig cellEnv (some "invalid assistant id") freshBot)
      = some 2000 := by decide

/-- C4, amended: a failure delivered via the error event whose message
contains none of the markers schedules zero retries under any
classification; a failure thrown during `startCall` itself, however,
schedules a 2000 ms retry on mobile user agents whenever the incremented
counter is below `maxRetries`, regardless of the message. -/
theorem c4_event_failures_not_retried (env : Env) (m : String) (s : BotState)
    (h1 : strContains m "network" = false) (h2 : strContains m "connection" = false)
    (h3 : strContains m "timeout" = false) :
    stepRetry (handleConnectionError env (some m) s) = none ∧
    (∀ (config : Config) (m2 : String) (s2 : BotState),
      truthy config.publicKey = true → truthy config.assistant = true →
      env.mobileUA = true → s2.connectionRetries + 1 < s2.maxRetries →
      stepRetry (startCall config env (some m2) s2) = some 2000) := by
  constructor
  · by_cases hm0 : m = ""
    · subst hm0
      cases hcell : (getNetworkInfo env).1.cellular <;>
        simp [handleConnectionError, stepRetry, hcell,
          (by decide : networkRelated "Unknown error occurred" = false),
          (by decide : strContains "Unknown error occurred" "network" = false)]
    · have hnr : networkRelated m = false := by
        simp [networkRelated, h1, h2, h3]
      cases hcell : (getNetworkInfo env).1.cellular <;>
        simp [handleConnectionError, stepRetry, hm0, hcell, hnr, h1]
  · intro config m2 s2 hpk ha hmob hlt
    simp [startCall, stepRetry, hpk, ha, hmob, hlt, timerFires, timerDelay]

/-- Witness for `c4_event_failures_not_retried`: a marker-free message
under cellular classification is not retried by the handler, while a
thrown failure with valid credentials on mobile is. -/
theorem c4_event_failures_not_retried_witness :
    strContains "invalid assistant id" "network" = false ∧
    strContains "invalid assistant id" "connection" = false ∧
    strContains "invalid assistant id" "timeout" = false ∧
    stepRetry (handleConnectionError cellEnv (some "invalid assistant id") freshBot) = none ∧
    stepRetry (startCall goodConfig cellEnv (some "boom") freshBot) = some 2000 :=
  ⟨by decide, by decide, by decide,
   (c4_event_failures_not_retried cellEnv "invalid assistant id" freshBot
      (by decide) (by decide) (by decide)).1,
   (c4_event_failures_not_retried cellEnv "invalid assistant id" freshBot
      (by decide) (by decide) (by decide)).2
     goodConfig "boom" freshBot (by decide) (by decide) (by decide) (by decide)⟩

/-! ## Claim C5 -/

/-- C5, failing input: start with valid credentials and a granted wake
lock, receive `call-start`, then `call-end` (remote hang-up).  The
`call-end` handler marks the session inactive but never releases the
wake lock, so the lock is held while the session is idle — contradicting
the claim that the lock is released on every path that leaves the
session not Active. -/
theorem c5_wakeLock_held_while_idle :
    ((runSys goodConfig initSys
        [Ev.click cellEnv none, Ev.callStarted cellEnv, Ev.callEnded]).bot.isCallActive
      = false) ∧
    ((runSys goodConfig initSys
        [Ev.click cellEnv none, Ev.callStarted cellEnv, Ev.callEnded]).bot.wakeLock
      = true) := by decide

/-! ## Claim C6 -/

/-- C6, counterexample: a session start under cellular classification
asks the transport to start (after the buffer delay) without ever
emitting the video-off/bitrate-capped send settings or the
processor-none input settings — so they are not applied before
`vapi.start`. -/
theorem c6_settings_not_before_start_counterexample :
    Effect.vapiStart ∈ (startCall goodConfig cellEnv none freshBot).effects ∧
    Effect.cellularBuffer ∈ (startCall goodConfig cellEnv none freshBot).effects ∧
    Effect.sendSettingsVideoOffBitrate 32000 ∉
      (startCall goodConfig cellEnv none freshBot).effects ∧
    Effect.updateInputProcessorNone ∉
      (startCall goodConfig cellEnv none freshBot).effects := by decide

/-- C6, amended: `startCall` never applies the audio-degradation
settings before `vapi.start` — under cellular it only inserts the buffer
delay; the video-off/bitrate-capped send settings and processor-none
input settings are applied by the `call-start` handler, after the call
has begun, when the user agent is mobile and the network is classified
cellular. -/
theorem c6_cellular_audio_settings_after_start (config : Config) (env : Env)
    (outcome : Option String) (s s2 : BotState)
    (hmob : env.mobileUA = true) (hc : (getNetworkInfo env).1.cellular = true) :
    Effect.sendSettingsVideoOffBitrate 32000 ∉ (startCall config env outcome s).effects ∧
    Effect.updateInputProcessorNone ∉ (startCall config env outcome s).effects ∧
    Effect.sendSettingsVideoOffBitrate 32000 ∈ (callStartHandler env s2).2 ∧
    Effect.updateInputProcessorNone ∈ (callStartHandler env s2).2 := by
  refine ⟨?_, ?_, ?_, ?_⟩
  · simp only [startCall]
    split
    · simp
    · cases outcome <;> simp [networkInfoEffects]
  · simp only [startCall]
    split
    · simp
    · cases outcome <;> simp [networkInfoEffects]
  · simp [callStartHandler, hmob, hc, networkInfoEffects]
  · simp [callStartHandler, hmob, hc, networkInfoEffects]

/-- Witness for `c6_cellular_audio_settings_after_start` at the concrete
cellular environment. -/
theorem c6_cellular_audio_settings_after_start_witness :
    cellEnv.mobileUA = true ∧ (getNetworkInfo cellEnv).1.cellular = true ∧
    (Effect.sendSettingsVideoOffBitrate 32000 ∉
       (startCall goodConfig cellEnv none freshBot).effects ∧
     Effect.updateInputProcessorNone ∉ (startCall goodConfig cellEnv none freshBot).effects ∧
     Effect.sendSettingsVideoOffBitrate 32000 ∈ (callStartHandler cellEnv freshBot).2 ∧
     Effect.updateInputProcessorNone ∈ (callStartHandler cellEnv freshBot).2) :=
  ⟨by decide, by decide,
   c6_cellular_audio_settings_after_start goodConfig cellEnv none freshBot freshBot
     (by decide) (by decide)⟩

/-! ## Claim C7 -/

/-- C7: with either credential missing (undefined or empty), `startCall`
leaves the state untouched, schedules no retry, surfaces only the
configuration error, and performs zero network activity: no transport is
constructed, no probe is fetched, and the transport is never asked to
start. -/
theorem c7_missing_credentials_no_network (config : Config) (env : Env)
    (outcome : Option String) (s : BotState)
    (h : (!truthy config.publicKey || !truthy config.assistant) = true) :
    (startCall config env outcome s).state = s ∧
    stepRetry (startCall config env outcome s) = none ∧
    (startCall config env outcome s).effects =
      [Effect.updateStatus "Please configure your Vapi credentials" "error",
       Effect.addMessage "system"
         "Error: Please set VITE_VAPI_PUBLIC_KEY and VITE_VAPI_ASSISTANT_ID environment variables"] ∧
    Effect.newVapi ∉ (startCall config env outcome s).effects ∧
    Effect.probeFetch ∉ (startCall config env outcome s).effects ∧
    Effect.vapiStart ∉ (startCall config env outcome s).effects := by
  refine ⟨?_, ?_, ?_, ?_, ?_, ?_⟩ <;> simp [startCall, h, stepRetry]

/-- Witness for `c7_missing_credentials_no_network` with the public key
missing. -/
theorem c7_missing_credentials_no_network_witness :
    (!truthy badConfig.publicKey || !truthy badConfig.assistant) = true ∧
    ((startCall badConfig cellEnv none freshBot).state = freshBot ∧
     stepRetry (startCall badConfig cellEnv none freshBot) = none ∧
     (startCall badConfig cellEnv none freshBot).effects =
       [Effect.updateStatus "Please configure your Vapi credentials" "error",
        Effect.addMessage "system"
          "Error: Please set VITE_VAPI_PUBLIC_KEY and VITE_VAPI_ASSISTANT_ID environment variables"] ∧
     Effect.newVapi ∉ (startCall badConfig cellEnv none freshBot).effects ∧
     Effect.probeFetch ∉ (startCall badConfig cellEnv none freshBot).effects ∧
     Effect.vapiStart ∉ (startCall badConfig cellEnv none freshBot).effects) :=
  ⟨by decide, c7_missing_credentials_no_network badConfig cellEnv none freshBot (by decide)⟩

/-! ## Claim C8 -/

/-- C8, counterexample: on a mobile device whose connection metadata is
available (a 4g wifi link), the classifier still issues the latency
probe — the probe is gated on the metadata classification being
non-cellular, not on metadata being absent. -/
theorem c8_probe_with_metadata_counterexample :
    wifiMobileEnv.connection ≠ none ∧ (getNetworkInfo wifiMobileEnv).2 = true := by decide

/-- C8, amended: the classifier issues its probe exactly when the
metadata-based classification is non-cellular (whether or not metadata
is present) and the device is a mobile user agent; on a non-mobile
device without metadata it returns `cellular = false`,
`effectiveType = unknown` with no probe; and when the probe is issued, a
failure or a round-trip above 150 ms classifies the link as cellular. -/
theorem c8_probe_policy (env : Env) :
    ((getNetworkInfo env).2 = (!metaCellular env.connection && env.mobileUA)) ∧
    (env.connection = none → env.mobileUA = false →
      getNetworkInfo env =
        ({ cellular := false, effectiveType := "unknown", downlink := none, rtt := none },
         false)) ∧
    (env.mobileUA = true → metaCellular env.connection = false → env.probe = none →
      (getNetworkInfo env).1.cellular = true) ∧
    (∀ r : Nat, env.mobileUA = true → metaCellular env.connection = false →
      env.probe = some r → 150 < r → (getNetworkInfo env).1.cellular = true) := by
  obtain ⟨conn, mob, probe, wl⟩ := env
  refine ⟨?_, ?_, ?_, ?_⟩
  · cases conn with
    | none =>
        cases mob <;> cases probe <;> simp [getNetworkInfo, metaCellular]
        all_goals split <;> rfl
    | some c =>
        cases hmc : metaCellular (some c) <;> cases mob <;> cases probe <;>
          simp [getNetworkInfo, hmc]
        all_goals split <;> rfl
  · intro h1 h2
    subst h1; subst h2
    rfl
  · intro hmob hmc hp
    subst hmob; subst hp
    cases conn <;> simp_all [getNetworkInfo, metaCellular]
  · intro r hmob hmc hp hr
    subst hmob; subst hp
    cases conn <;> simp_all [getNetworkInfo, metaCellular]

/-- Witness for `c8_probe_policy` at the desktop environment without
metadata and at the mobile environment whose probe fails. -/
theorem c8_probe_policy_witness :
    (getNetworkInfo desktopEnv =
      ({ cellular := false, effectiveType := "unknown", downlink := none, rtt := none },
       false)) ∧
    (getNetworkInfo probeFailEnv).1.cellular = true :=
  ⟨(c8_probe_policy desktopEnv).2.1 rfl rfl,
   (c8_probe_policy probeFailEnv).2.2.1 rfl rfl rfl⟩

/-! ## Claim C9 -/

/-- The C9 failing trace: a started call; two cellular network-related
error events each schedule a 3000 ms retry; the first retry fires and
the call restarts; the user then clicks stop (`endCall`, which resets
`connectionRetries` to 0 but cancels nothing); finally the stale second
timer fires. -/
def c9Events : List Ev :=
  [Ev.click cellEnv none, Ev.callStarted cellEnv,
   Ev.vapiError cellEnv (some "connection timeout"),
   Ev.vapiError cellEnv (some "connection timeout"),
   Ev.fire 0 cellEnv none, Ev.callStarted cellEnv,
   Ev.click cellEnv none, Ev.fire 0 cellEnv none]

/-- C9, failing input evaluated: after the manual stop (event 7) one
retry timer scheduled before the stop is still pending, and when it
fires it passes the `connectionRetries < 2` guard (the stop reset the
counter to 0) and re-invokes `startCall` — a stale retry creating a new
session attempt after a manual stop, contradicting the claim that a
scheduled retry is cancelled by stopping. -/
theorem c9_stale_retry_after_stop :
    ((runSys goodConfig initSys (c9Events.take 7)).timers = [TimerKind.cellularRetry]) ∧
    ((runSys goodConfig initSys (c9Events.take 7)).startsInvoked = 2) ∧
    ((runSys goodConfig initSys c9Events).startsInvoked = 3) := by decide

/-! ## Claim C10 -/

/-- C10: for every prior failure history and environment, the
`call-start` handler resets `connectionRetries` to 0. -/
theorem c10_call_start_resets_retries (env : Env) (s : BotState) :
    (callStartHandler env s).1.connectionRetries = 0 := rfl

end DavBot
